import Mathlib

/-!
Shallow embedding of the react-forms repository's validation and form-state
logic, together with theorems settling the specification claims.

Sources embedded:
- src/components/forms/rhfForm/schema.ts   (the zod `formSchema`)
- src/components/forms/uncontrolled/UncontrolledForm.tsx (`validateField`, `handleSubmit`)
- src/components/forms/controlled/ControlledForm.tsx (`isFormValid`, submit button)
- src/components/forms/rhfForm/ControlledInputFields.tsx (CountryField filter effect)
- src/store/helper.ts (`validateImage`, `handleImageChange`)
- src/store/slices/formSlicer.ts (`setFormValue` reducer)

Strings are modelled as Lean `String` (lists of characters); the character
classes `[a-z]`, `[A-Z]`, `\d` of the JavaScript regexes are ASCII, matching
Lean's `Char.isLower`, `Char.isUpper`, `Char.isDigit`.
-/

/-- Character set of the password regex in schema.ts, literally the regex
character class `[!@#$%^&*()_+\-=[\]{};':"\\|,.<>/?]` (note it contains the
colon `:`). -/
def specialChars : List Char :=
  ['!', '@', '#', '$', '%', '^', '&', '*', '(', ')', '_', '+', '-', '=',
   '[', ']', '{', '}', ';', '\'', ':', '"', '\\', '|', ',', '.', '<', '>', '/', '?']

/-- Special-character set exactly as listed in the spec sentence
"one of `! @ # $ % ^ & * ( ) _ + - = [ ] { } ; ' " \ | , . < > / ?`"
(it does not contain the colon). -/
def specSpecialChars : List Char :=
  ['!', '@', '#', '$', '%', '^', '&', '*', '(', ')', '_', '+', '-', '=',
   '[', ']', '{', '}', ';', '\'', '"', '\\', '|', ',', '.', '<', '>', '/', '?']

/-- Special-character set of the spec sentence amended with the colon, which
the source regex also accepts; with the colon inserted the set coincides with
`specialChars`. -/
def specSpecialCharsAmended : List Char := specialChars

/-- Line terminators that the JavaScript regex `.` does not match when the
`s` (dotAll) flag is absent: line feed, carriage return, line separator and
paragraph separator. -/
def isLineTerm (c : Char) : Bool :=
  c == '\n' || c == '\r' || c == '\u2028' || c == '\u2029'

/-- Characters a `.*` anchored at the start of the string can scan over: the
prefix of the string before its first line terminator. -/
def regexDotScan (s : String) : List Char :=
  s.data.takeWhile (fun c => !(isLineTerm c))

def hasLower (s : String) : Bool := (regexDotScan s).any Char.isLower

def hasUpper (s : String) : Bool := (regexDotScan s).any Char.isUpper

def hasDigit (s : String) : Bool := (regexDotScan s).any Char.isDigit

def hasSpecial (s : String) : Bool :=
  (regexDotScan s).any (fun c => specialChars.contains c)

/-- Test of the password regex
`/^(?=.*[a-z])(?=.*[A-Z])(?=.*\d)(?=.*[...])/` from schema.ts: each lookahead
`(?=.*[class])` succeeds exactly when a character of the class occurs at a
position all of whose predecessors `.` can match, i.e. before the first line
terminator of the string (the regex has no `s` flag, and no class member is
itself a line terminator). -/
def passwordComplexOk (s : String) : Bool :=
  hasLower s && hasUpper s && hasDigit s && hasSpecial s

/-- Test of the regex `/^[A-Z]/` from the name rule in schema.ts. -/
def startsUpperAZ (s : String) : Bool :=
  match s.data with
  | [] => false
  | c :: _ => 'A' ≤ c && c ≤ 'Z'

def emailLocalChar (c : Char) : Bool :=
  c.isAlphanum || c == '_' || c == '\'' || c == '+' || c == '-' || c == '.'

def emailLocalLast (c : Char) : Bool :=
  c.isAlphanum || c == '_' || c == '+' || c == '-'

def emailLabelOk (l : String) : Bool :=
  (match l.data with
   | [] => false
   | c :: _ => c.isAlphanum) &&
  l.data.all (fun c => c.isAlphanum || c == '-')

def emailTldOk (t : String) : Bool :=
  2 ≤ t.length && t.data.all Char.isAlpha

def listStarts : List Char → List Char → Bool
  | [], _ => true
  | _ :: _, [] => false
  | a :: as, b :: bs => a == b && listStarts as bs

def listHasSub (needle : List Char) : List Char → Bool
  | [] => needle.isEmpty
  | b :: bs => listStarts needle (b :: bs) || listHasSub needle bs

def hasDoubleDot (s : String) : Bool := listHasSub ['.', '.'] s.data

/-- Test whether `p` is an initial segment of `s` (JavaScript `startsWith`). -/
def strStarts (s p : String) : Bool := listStarts p.data s.data

/-- Split a character list at every occurrence of `sep` (the splitting used by
the email check, on `@` and `.`). -/
def splitOnChar (sep : Char) : List Char → List (List Char)
  | [] => [[]]
  | c :: rest =>
    let r := splitOnChar sep rest
    if c == sep then [] :: r
    else
      match r with
      | [] => [[c]]
      | h :: t => (c :: h) :: t

/-- Test of zod's email regex
`/^(?!\.)(?!.*\.\.)([A-Z0-9_'+\-\.]*)[A-Z0-9_+-]@([A-Z0-9][A-Z0-9\-]*\.)+[A-Z]{2,}$/i`
used by `z.string().email(...)` in schema.ts: a non-empty local part over the
allowed characters (not starting with a dot, not ending in a dot or quote, no
two consecutive dots anywhere), and a domain of one or more alphanumeric/
hyphen labels followed by an alphabetic top-level domain of length ≥ 2. -/
def emailOk (s : String) : Bool :=
  match splitOnChar '@' s.data with
  | [loc, domain] =>
    !(listStarts ['.'] s.data) && !(hasDoubleDot s) &&
    !loc.isEmpty && loc.all emailLocalChar &&
    (match loc.getLast? with
     | none => false
     | some c => emailLocalLast c) &&
    (let parts := splitOnChar '.' domain
     2 ≤ parts.length &&
     parts.dropLast.all (fun l => emailLabelOk ⟨l⟩) &&
     (match parts.getLast? with
      | none => false
      | some t => emailTldOk ⟨t⟩))
  | _ => false

/-- Validation issue, as reported by `formSchema.parse`: the first path
component and the human-readable message. -/
structure Issue where
  path : String
  message : String
deriving DecidableEq, Repr

/-- Values of the form, i.e. the `FormSchema` record of schema.ts as held by
UncontrolledForm's state and by the store slice. -/
structure FormSchemaV where
  name : String
  age : Int
  email : String
  password : String
  confirmPassword : String
  gender : String
  terms : Bool
  imageBase64 : String
  country : String
deriving DecidableEq, Repr

/-- Issues of the `name` field: `z.string().min(1).regex(/^[A-Z]/).min(2)`;
zod runs every check and collects every failing one, in order. -/
def nameIssues (s : String) : List Issue :=
  (if s.length < 1 then [⟨"name", "Name is required"⟩] else []) ++
  (if startsUpperAZ s then [] else
    [⟨"name", "Name must start with an uppercase letter"⟩]) ++
  (if s.length < 2 then [⟨"name", "Name must be at least 2 characters long"⟩] else [])

/-- Issues of the `age` field: `z.number().min(0).min(18).max(120)`. -/
def ageIssues (n : Int) : List Issue :=
  (if n < 0 then [⟨"age", "Age cannot be negative"⟩] else []) ++
  (if n < 18 then [⟨"age", "Must be at least 18 years old"⟩] else []) ++
  (if 120 < n then [⟨"age", "Age must be reasonable"⟩] else [])

/-- Issues of the `email` field: `z.string().min(1).email(...)`. -/
def emailIssues (s : String) : List Issue :=
  (if s.length < 1 then [⟨"email", "Email is required"⟩] else []) ++
  (if emailOk s then [] else [⟨"email", "Invalid email format"⟩])

/-- Issues of the `password` field: `z.string().min(8).regex(...)`. -/
def passwordIssues (s : String) : List Issue :=
  (if s.length < 8 then
    [⟨"password", "Password must be at least 8 characters long"⟩] else []) ++
  (if passwordComplexOk s then [] else
    [⟨"password",
      "Password must contain at least one lowercase letter, one uppercase letter, one number, and one special character"⟩])

/-- Issues of the `confirmPassword` field: `z.string().min(1)`. -/
def confirmPasswordIssues (s : String) : List Issue :=
  if s.length < 1 then [⟨"confirmPassword", "Please confirm your password"⟩] else []

/-- Issues of the `gender` field: `z.string().min(1)`. -/
def genderIssues (s : String) : List Issue :=
  if s.length < 1 then [⟨"gender", "Please select a gender"⟩] else []

/-- Issues of the `terms` field: `z.boolean().refine(val => val === true)`. -/
def termsIssues (b : Bool) : List Issue :=
  if b then [] else [⟨"terms", "You must agree to the terms and conditions"⟩]

def allowedImagePrefixes : List String :=
  ["data:image/png", "data:image/jpeg", "data:image/jpg", "data:image/svg+xml"]

/-- Issues of the `imageBase64` field: an optional string with two refinements;
both refinements accept the empty string, and both run (a failing refinement
marks the parse dirty but does not abort it). -/
def imageBase64Issues (s : String) : List Issue :=
  (if s = "" || strStarts s "data:image/" then [] else
    [⟨"imageBase64", "Invalid image format"⟩]) ++
  (if s = "" || allowedImagePrefixes.any (fun t => strStarts s t) then [] else
    [⟨"imageBase64", "Only PNG, JPEG, and SVG images are allowed"⟩])

/-- Issues of the `country` field: `z.string().min(1)`. -/
def countryIssues (s : String) : List Issue :=
  if s.length < 1 then [⟨"country", "Please select a country"⟩] else []

/-- Field-level issues of `formSchema`'s base object, in shape order. -/
def parseIssues (v : FormSchemaV) : List Issue :=
  nameIssues v.name ++ ageIssues v.age ++ emailIssues v.email ++
  passwordIssues v.password ++ confirmPasswordIssues v.confirmPassword ++
  genderIssues v.gender ++ termsIssues v.terms ++
  imageBase64Issues v.imageBase64 ++ countryIssues v.country

/-- All issues of `formSchema.parse`: the base object's issues followed by the
cross-field `.refine` issue. With type-correct inputs the base parse is at
worst dirty (never aborted), so zod executes the refinement in every case and
attaches its issue at path `['confirmPassword']`. -/
def fullIssues (v : FormSchemaV) : List Issue :=
  parseIssues v ++
  (if v.password = v.confirmPassword then [] else
    [⟨"confirmPassword", "Passwords must match"⟩])

/-- Acceptance of a password by the rule set (no issue on the password field). -/
def passwordAccepted (p : String) : Bool := (passwordIssues p).isEmpty

/-- Predicate written from the spec's words: length ≥ 8 and the string
contains (anywhere) at least one lowercase, one uppercase, one digit, and one
character from the spec's listed special set (which omits the colon). -/
def specIsStrong (p : String) : Bool :=
  decide (8 ≤ p.length) && p.data.any Char.isLower && p.data.any Char.isUpper &&
  p.data.any Char.isDigit && p.data.any (fun c => specSpecialChars.contains c)

/-- Value bundle used to study the (password, confirmPassword) pair: every
other field is fixed to the spec's valid scenario (§8) values. -/
def pairBundle (pw cpw : String) : FormSchemaV :=
  { name := "John", age := 25, email := "john@x.com", password := pw,
    confirmPassword := cpw, gender := "male", terms := true,
    imageBase64 := "", country := "United States" }

/-- Country record from src/store/types (part of the repository's store). -/
structure Country where
  name : String
  capital : String
  population : Nat
  region : String
  flag : String
  alpha2Code : String
  alpha3Code : String
  altSpellings : List String
  area : Nat
  borders : List String
deriving DecidableEq, Repr

/-- Case-insensitive substring test, modelling
`hay.toLowerCase().includes(term.toLowerCase())` (ASCII case folding). -/
def containsCI (hay term : String) : Bool :=
  listHasSub (term.data.map Char.toLower) (hay.data.map Char.toLower)

/-- Match predicate of the CountryField filter effect: the record's name or
2-letter code contains the search term case-insensitively. -/
def countryMatches (term : String) (c : Country) : Bool :=
  containsCI c.name term || containsCI c.alpha2Code term

/-- Test of `searchTerm.trim() === ''`: true exactly when every character is
whitespace. -/
def trimIsEmpty (s : String) : Bool := s.data.all Char.isWhitespace

/-- Country filter of the CountryField effect (ControlledInputFields.tsx
lines 277-290): empty trimmed term takes the first 10 records, otherwise the
first 10 records matching on name or alpha-2 code, in list order. -/
def filterCountries (countries : List Country) (searchTerm : String) : List Country :=
  if trimIsEmpty searchTerm then countries.take 10
  else (countries.filter (countryMatches searchTerm)).take 10

/-- Single-field update events fired by the form inputs' onChange handlers. -/
inductive FieldUpd where
  | name (v : String)
  | age (v : Int)
  | email (v : String)
  | password (v : String)
  | confirmPassword (v : String)
  | gender (v : String)
  | terms (v : Bool)
  | imageBase64 (v : String)
  | country (v : String)
deriving DecidableEq, Repr

def applyUpd (s : FormSchemaV) : FieldUpd → FormSchemaV
  | .name v => { s with name := v }
  | .age v => { s with age := v }
  | .email v => { s with email := v }
  | .password v => { s with password := v }
  | .confirmPassword v => { s with confirmPassword := v }
  | .gender v => { s with gender := v }
  | .terms v => { s with terms := v }
  | .imageBase64 v => { s with imageBase64 := v }
  | .country v => { s with country := v }

/-- Field-name string the onChange handler passes to `validateField`. -/
def updFieldName : FieldUpd → String
  | .name _ => "name"
  | .age _ => "age"
  | .email _ => "email"
  | .password _ => "password"
  | .confirmPassword _ => "confirmPassword"
  | .gender _ => "gender"
  | .terms _ => "terms"
  | .imageBase64 _ => "imageBase64"
  | .country _ => "country"

/-- Initial state of the store slice (formSlicer.ts `defaultFormValues`). -/
def defaultFormValues : FormSchemaV :=
  { name := "", age := 0, email := "", password := "", confirmPassword := "",
    gender := "", terms := false, imageBase64 := "", country := "" }

/-- Variant A (ControlledForm.tsx) UI state: the current values plus the
memoised `isFormValid`. The memo's dependency array is `[methods]`, and
`methods` is the stable object returned by `useForm`, so the memo is computed
once at mount and is never recomputed afterwards. -/
structure StateA where
  values : FormSchemaV
  isFormValidMemo : Bool
deriving DecidableEq, Repr

def mountA (v0 : FormSchemaV) : StateA := ⟨v0, (fullIssues v0).isEmpty⟩

/-- Field change in Variant A: values move, the memo does not. -/
def stepA (s : StateA) (u : FieldUpd) : StateA :=
  ⟨applyUpd s.values u, s.isFormValidMemo⟩

def runA (v0 : FormSchemaV) (us : List FieldUpd) : StateA :=
  us.foldl stepA (mountA v0)

/-- Submit-button condition in ControlledForm.tsx:
`disabled={!isFormValid || isSubmitting}`. -/
def submitEnabledA (s : StateA) (isSubmitting : Bool) : Bool :=
  s.isFormValidMemo && !isSubmitting

/-- Error map of UncontrolledForm's `errors` state. -/
abbrev ErrMap : Type := String → Option String

/-- Model of `validateField` (UncontrolledForm.tsx lines 36-83): parse the full
current value set; on success drop the changed field's entry; on failure set
the changed field's entry to the first issue whose path is that field, or
leave the map untouched when no issue targets that field. -/
def validateFieldErrors (fieldName : String) (data : FormSchemaV)
    (errors : ErrMap) : ErrMap :=
  let issues := fullIssues data
  if issues.isEmpty then
    fun k => if k = fieldName then none else errors k
  else
    match issues.find? (fun i => i.path == fieldName) with
    | some i => fun k => if k = fieldName then some i.message else errors k
    | none => errors

/-- Variant B (UncontrolledForm.tsx) UI state. -/
structure StateB where
  values : FormSchemaV
  errors : ErrMap

/-- Initial Variant B state: default values, no errors (the mount pre-fill from
the default store writes the same default values back). -/
def initialStateB : StateB := ⟨defaultFormValues, fun _ => none⟩

/-- Field-change event in Variant B: every onChange handler stores the new
value and calls `validateField` with it; `validateField` closes over the old
values of the other fields and overrides the changed one. -/
def changeB (s : StateB) (u : FieldUpd) : StateB :=
  let newValues := applyUpd s.values u
  ⟨newValues, validateFieldErrors (updFieldName u) newValues s.errors⟩

/-- Reducer `setFormValue` of formSlicer.ts: `{ ...state, ...action.payload }`
where the payload is a full `FormSchema` record, so every key is overwritten. -/
def setFormValueReducer (state action : FormSchemaV) : FormSchemaV :=
  { name := action.name, age := action.age, email := action.email,
    password := action.password, confirmPassword := action.confirmPassword,
    gender := action.gender, terms := action.terms,
    imageBase64 := action.imageBase64, country := action.country }

/-- Errors map built by `handleSubmit`'s catch branch: for each issue, in
order, `newErrors[path] = message` (a later issue for the same field
overwrites an earlier one). -/
def issuesToErrors (issues : List Issue) : ErrMap :=
  issues.foldl (fun m i => fun k => if k = i.path then some i.message else m k)
    (fun _ => none)

/-- Outcome of a Variant B submission: the store contents afterwards, the
errors state afterwards, and the list of `onSubmit` callback invocations. -/
structure SubmitResultB where
  store : FormSchemaV
  errors : ErrMap
  calls : List FormSchemaV

/-- Model of `handleSubmit` (UncontrolledForm.tsx lines 99-136): parse the
formed data; on success clear the errors, dispatch `setFormValue` and invoke
the callback once with the validated data (which `formSchema.parse` returns
unchanged, the schema having no transforms); on failure populate the errors
from the issues and touch nothing else. -/
def handleSubmitB (store : FormSchemaV) (v : FormSchemaV) : SubmitResultB :=
  let issues := fullIssues v
  if issues.isEmpty then
    ⟨setFormValueReducer store v, fun _ => none, [v]⟩
  else
    ⟨store, issuesToErrors issues, []⟩

/-- Image file as seen by `validateImage`: its byte size and MIME type. -/
structure ImgFile where
  size : Nat
  type : String
deriving DecidableEq, Repr

def allowedImageTypes : List String :=
  ["image/png", "image/jpeg", "image/jpg", "image/svg+xml"]

/-- Model of `validateImage` (store/helper.ts lines 31-48). -/
def validateImage (f : ImgFile) : Option String :=
  if 5 * 1024 * 1024 < f.size then some "Image size must be less than 5MB"
  else if !(allowedImageTypes.contains f.type) then
    some "Only PNG, JPEG, and SVG images are allowed"
  else none

/-- Observable outcome of `handleImageChange`: the value stored for the
`imageBase64` field and the validation error shown (empty string when none). -/
structure ImageChangeResult where
  imageValue : String
  validationError : String
deriving DecidableEq, Repr

/-- Model of `handleImageChange` (store/helper.ts lines 50-83); the
asynchronous `convertToBase64` is passed in as a function returning either the
data-URI or a read failure, both of which the code handles (the catch branch
stores the empty string), so no exception escapes. -/
def handleImageChange (file : Option ImgFile)
    (convert : ImgFile → Except String String) : ImageChangeResult :=
  match file with
  | none => ⟨"", ""⟩
  | some f =>
    match validateImage f with
    | some err => ⟨"", err⟩
    | none =>
      match convert f with
      | .ok b64 => ⟨b64, ""⟩
      | .error _ => ⟨"", "Failed to process image"⟩

/-- Two-record fixture list for the country-filter witness. -/
def fixtureCountries : List Country :=
  [{ name := "United States", capital := "Washington", population := 331000000,
     region := "Americas", flag := "us.svg", alpha2Code := "US",
     alpha3Code := "USA", altSpellings := ["US"], area := 9833520,
     borders := ["CAN", "MEX"] },
   { name := "Germany", capital := "Berlin", population := 83000000,
     region := "Europe", flag := "de.svg", alpha2Code := "DE",
     alpha3Code := "DEU", altSpellings := ["DE"], area := 357022,
     borders := ["FRA"] }]

/-- Update sequence entering the spec's valid scenario bundle (§8). -/
def validScenarioUpds : List FieldUpd :=
  [.name "John", .age 25, .email "john@x.com", .password "StrongPass123!",
   .confirmPassword "StrongPass123!", .gender "male", .terms true,
   .country "United States"]

/-- Fully valid value bundle (the spec's §8 scenario). -/
def validBundle : FormSchemaV := pairBundle "StrongPass123!" "StrongPass123!"

/-- Variant B state holding the valid bundle with no errors displayed. -/
def validStateB : StateB := ⟨validBundle, fun _ => none⟩

/-- Variant B state with a stale password error and an invalid name. -/
def staleStateB : StateB :=
  ⟨{ defaultFormValues with password := "weak" },
   fun k => if k = "password" then
     some "Password must be at least 8 characters long" else none⟩

lemma ite_one_nil {α : Type} (c : Prop) [Decidable c] (x : α) :
    ((if c then [x] else []) = []) ↔ ¬ c := by
  split <;> simp_all

lemma ite_nil_one {α : Type} (c : Prop) [Decidable c] (x : α) :
    ((if c then [] else [x]) = []) ↔ c := by
  split <;> simp_all

lemma string_eq_empty_iff (s : String) : s = "" ↔ s.length = 0 := by
  rw [String.ext_iff]
  constructor
  · intro h; simp [String.length, h]
  · intro h
    have : s.data = [] := List.length_eq_zero.mp h
    simp [this]

/-- C1 counterexample: the claimed equivalence fails in both directions. The
password "Abcdef1:" is accepted by the source's rule (its only special
character is the colon, which the regex class in schema.ts contains) while
the predicate written from the spec's listed set (omitting the colon) rejects
it; and the password "ABCDEFG1!\na" contains every required class but is
rejected by the source, because its only lowercase letter sits after the
newline, which the lookaheads' dot cannot cross. -/
theorem c1_password_counterexample :
    (passwordAccepted "Abcdef1:" = true ∧ specIsStrong "Abcdef1:" = false) ∧
    (passwordAccepted "ABCDEFG1!\na" = false ∧
      specIsStrong "ABCDEFG1!\na" = true) := by
  decide

/-- C1 (amended): the rule set accepts a password exactly when it has length
at least 8 and, before its first line terminator (the lookaheads' dot does
not cross line terminators), contains at least one lowercase letter, one
uppercase letter, one digit, and one special character from the spec's listed
set amended with the colon. -/
theorem c1_password_rule_characterization (p : String) :
    passwordAccepted p = true ↔
      (8 ≤ p.length ∧ (∃ c ∈ regexDotScan p, c.isLower = true) ∧
       (∃ c ∈ regexDotScan p, c.isUpper = true) ∧
       (∃ c ∈ regexDotScan p, c.isDigit = true) ∧
       (∃ c ∈ regexDotScan p, c ∈ specSpecialCharsAmended)) := by
  unfold passwordAccepted passwordIssues passwordComplexOk hasLower hasUpper
    hasDigit hasSpecial specSpecialCharsAmended
  rw [List.isEmpty_iff, List.append_eq_nil, ite_one_nil, ite_nil_one]
  simp only [Bool.and_eq_true, List.any_eq_true, Nat.not_lt, List.contains,
    List.elem_iff, and_assoc]

lemma parseIssues_pairBundle (pw cpw : String) :
    parseIssues (pairBundle pw cpw) =
      passwordIssues pw ++ confirmPasswordIssues cpw := by
  dsimp only [parseIssues, pairBundle]
  rw [(by decide : nameIssues "John" = []),
    (by decide : ageIssues 25 = []),
    (by decide : emailIssues "john@x.com" = []),
    (by decide : genderIssues "male" = []),
    (by decide : termsIssues true = []),
    (by decide : imageBase64Issues "" = []),
    (by decide : countryIssues "United States" = [])]
  simp

/-- C2: with every other field held at the valid scenario values, full
validation passes a (password, confirmPassword) pair exactly when the two are
equal, the password satisfies its own rules and the confirmation is
non-empty; and whenever the pair differs, the issue list carries the
"Passwords must match" error at path `confirmPassword`. -/
theorem c2_pair_validation (pw cpw : String) :
    ((fullIssues (pairBundle pw cpw)).isEmpty = true ↔
      ((passwordIssues pw).isEmpty = true ∧ cpw ≠ "" ∧ pw = cpw))
    ∧ (pw ≠ cpw →
        Issue.mk "confirmPassword" "Passwords must match" ∈
          fullIssues (pairBundle pw cpw)) := by
  have hp := parseIssues_pairBundle pw cpw
  constructor
  · rw [List.isEmpty_iff, fullIssues, hp, List.append_assoc, List.append_eq_nil,
      List.append_eq_nil]
    dsimp only [pairBundle]
    rw [confirmPasswordIssues, ite_one_nil, ite_nil_one, List.isEmpty_iff]
    have hne : (¬ cpw.length < 1) ↔ cpw ≠ "" := by
      rw [Ne, string_eq_empty_iff]
      omega
    rw [hne]
  · intro hne
    rw [fullIssues, hp]
    dsimp only [pairBundle]
    rw [if_neg hne]
    simp

/-- C3: the country filter returns at most 10 records, always a sublist of the
input (original order, no modification); with an all-whitespace term it is the
first min(10, length) records unchanged, and otherwise it is the first at most
10 records matching the term case-insensitively on name or alpha-2 code. The
function is pure, so the result is fixed by `(l, t)`. -/
theorem c3_country_filter (l : List Country) (t : String) :
    (filterCountries l t).length ≤ 10 ∧
    List.Sublist (filterCountries l t) l ∧
    (trimIsEmpty t = true →
      filterCountries l t = l.take 10 ∧
      (filterCountries l t).length = min 10 l.length) ∧
    (trimIsEmpty t = false →
      filterCountries l t = (l.filter (countryMatches t)).take 10 ∧
      ∀ c ∈ filterCountries l t, countryMatches t c = true) := by
  unfold filterCountries
  by_cases h : trimIsEmpty t = true
  · rw [if_pos h]
    refine ⟨?_, List.take_sublist 10 l, fun _ => ⟨rfl, List.length_take 10 l⟩,
      fun h' => absurd h (by simp [h'])⟩
    rw [List.length_take]
    exact Nat.min_le_left 10 l.length
  · rw [if_neg h]
    refine ⟨?_, ((List.take_sublist 10 _).trans (List.filter_sublist l)),
      fun h' => absurd h' h, fun _ => ⟨rfl, ?_⟩⟩
    · rw [List.length_take]
      exact Nat.min_le_left _ _
    · intro c hc
      have hm := (List.take_sublist 10 _).subset hc
      exact (List.mem_filter.mp hm).2

/-- C3 witness: the general filter theorem applied to a concrete fixture list
and the term "US". -/
theorem c3_country_filter_witness :
    filterCountries fixtureCountries "US" =
      (fixtureCountries.filter (countryMatches "US")).take 10 :=
  ((c3_country_filter fixtureCountries "US").2.2.2 (by decide)).1

/-- C2 witness: the pair theorem applied at a concrete mismatched pair. -/
theorem c2_pair_validation_witness :
    Issue.mk "confirmPassword" "Passwords must match" ∈
      fullIssues (pairBundle "StrongPass123!" "StrongPass12") :=
  (c2_pair_validation "StrongPass123!" "StrongPass12").2 (by decide)

/-- C4 (bug evaluation): mounting Variant A on the default (invalid) store
values and then entering the fully valid scenario bundle leaves the submit
button disabled, although a full validation pass over the current values
succeeds — `isFormValid` is memoised over the stable `methods` reference and
is never recomputed after mount. -/
theorem c4_submit_stays_disabled_on_valid_values :
    (fullIssues (runA defaultFormValues validScenarioUpds).values).isEmpty = true ∧
    submitEnabledA (runA defaultFormValues validScenarioUpds) false = false := by
  decide

/-- C5 counterexample: from the initial Variant B state, the single
field-change event setting password to "weak" adds a password entry to the
errors map (the change handlers call `validateField`), so a change event does
not leave the ValidationErrors map unchanged. -/
theorem c5_change_event_validates_counterexample :
    initialStateB.errors "password" = none ∧
    (changeB initialStateB (.password "weak")).errors "password" =
      some "Password must be at least 8 characters long" := by
  constructor
  · rfl
  · decide

/-- C5 (amended): a field-change event stores the new value and runs a
partial validation pass that touches at most the changed field's error entry;
every other field's entry is unchanged. -/
theorem c5_change_updates_value_and_own_error_only (s : StateB) (u : FieldUpd) :
    (changeB s u).values = applyUpd s.values u ∧
    ∀ k, k ≠ updFieldName u → (changeB s u).errors k = s.errors k := by
  refine ⟨rfl, ?_⟩
  intro k hk
  dsimp only [changeB, validateFieldErrors]
  split
  · exact if_neg hk
  · rcases hfind : List.find? (fun i => i.path == updFieldName u)
      (fullIssues (applyUpd s.values u)) with _ | i
    · simp only [hfind]
    · simp only [hfind]
      exact if_neg hk

/-- C5 witness: the amended theorem applied at the initial state, a password
change and the unrelated key "name". -/
theorem c5_change_updates_witness :
    (changeB initialStateB (.password "weak")).errors "name" =
      initialStateB.errors "name" :=
  (c5_change_updates_value_and_own_error_only initialStateB
    (.password "weak")).2 "name" (by decide)

lemma foldlErr_isSome (issues : List Issue) (m : ErrMap) (f : String) :
    ((issues.foldl
        (fun m i => fun k => if k = i.path then some i.message else m k) m) f).isSome
        = true ↔
      (∃ i ∈ issues, i.path = f) ∨ (m f).isSome = true := by
  induction issues generalizing m with
  | nil => simp
  | cons i is ih =>
    rw [List.foldl_cons, ih]
    by_cases hf : f = i.path
    · simp [List.mem_cons, hf]
    · simp only [List.mem_cons, if_neg hf]
      constructor
      · rintro (⟨j, hj, hjp⟩ | hm)
        · exact Or.inl ⟨j, Or.inr hj, hjp⟩
        · exact Or.inr hm
      · rintro (⟨j, hj | hj, hjp⟩ | hm)
        · exact absurd (hj ▸ hjp) (fun h => hf h.symm)
        · exact Or.inl ⟨j, hj, hjp⟩
        · exact Or.inr hm

lemma issuesToErrors_isSome (issues : List Issue) (f : String) :
    ((issuesToErrors issues) f).isSome = true ↔ ∃ i ∈ issues, i.path = f := by
  rw [issuesToErrors, foldlErr_isSome]
  simp

/-- C6: a Variant B submission with failing validation leaves the store
untouched, invokes no callback, and produces an errors map with an entry for
exactly the fields the validator reports; a submission with passing
validation writes the values to the store, invokes the callback once with
them, and clears the errors map. -/
theorem c6_submit_effects (store v : FormSchemaV) :
    ((fullIssues v).isEmpty = false →
      (handleSubmitB store v).store = store ∧
      (handleSubmitB store v).calls = [] ∧
      (∀ f, (((handleSubmitB store v).errors f).isSome = true ↔
        ∃ i ∈ fullIssues v, i.path = f)))
    ∧ ((fullIssues v).isEmpty = true →
      (handleSubmitB store v).store = v ∧
      (handleSubmitB store v).calls = [v] ∧
      ∀ f, (handleSubmitB store v).errors f = none) := by
  constructor
  · intro h
    dsimp only [handleSubmitB]
    rw [if_neg (by simp [h])]
    exact ⟨rfl, rfl, fun f => issuesToErrors_isSome (fullIssues v) f⟩
  · intro h
    dsimp only [handleSubmitB]
    rw [if_pos h]
    exact ⟨rfl, rfl, fun f => rfl⟩

/-- C6 witness: submitting the default (invalid) values invokes no callback. -/
theorem c6_submit_effects_witness :
    (handleSubmitB defaultFormValues defaultFormValues).calls = [] :=
  ((c6_submit_effects defaultFormValues defaultFormValues).1 (by decide)).2.1

/-- C7 counterexample: from a fully valid state, changing the password so that
the pair no longer matches leaves the errors map empty on both password and
confirmPassword, although the full rule set does flag the mismatch — the
mismatch issue is attached to confirmPassword, and `validateField` run for
the password field only reports issues whose path is `password`. -/
theorem c7_password_change_unreported_counterexample :
    (fullIssues (applyUpd validStateB.values (.password "StrongPass124!"))).isEmpty
        = false ∧
    (changeB validStateB (.password "StrongPass124!")).errors "confirmPassword"
        = none ∧
    (changeB validStateB (.password "StrongPass124!")).errors "password" = none := by
  decide

/-- C7 (amended): partial-apply validation re-runs the whole rule set over the
full value set but reports only issues at the changed field's path; since the
pair-mismatch issue is attached to confirmPassword, re-validating
confirmPassword reports the mismatch, while re-validating password (with the
rest of the value set otherwise valid) changes no error entry at all. -/
theorem c7_partial_apply_pair_reporting (s : StateB) (newCpw newPw : String) :
    ((parseIssues (applyUpd s.values (.confirmPassword newCpw))).isEmpty = true →
      (applyUpd s.values (.confirmPassword newCpw)).password ≠
        (applyUpd s.values (.confirmPassword newCpw)).confirmPassword →
      (changeB s (.confirmPassword newCpw)).errors "confirmPassword" =
        some "Passwords must match")
    ∧ ((parseIssues (applyUpd s.values (.password newPw))).isEmpty = true →
      (applyUpd s.values (.password newPw)).password ≠
        (applyUpd s.values (.password newPw)).confirmPassword →
      (changeB s (.password newPw)).errors = s.errors) := by
  constructor
  · intro h1 h2
    have hfull : fullIssues (applyUpd s.values (.confirmPassword newCpw)) =
        [⟨"confirmPassword", "Passwords must match"⟩] := by
      rw [fullIssues, List.isEmpty_iff.mp h1, if_neg h2]
      rfl
    dsimp only [changeB, validateFieldErrors, updFieldName]
    simp [hfull]
  · intro h1 h2
    have hfull : fullIssues (applyUpd s.values (.password newPw)) =
        [⟨"confirmPassword", "Passwords must match"⟩] := by
      rw [fullIssues, List.isEmpty_iff.mp h1, if_neg h2]
      rfl
    dsimp only [changeB, validateFieldErrors, updFieldName]
    have hne : ((Issue.mk "confirmPassword" "Passwords must match").path ==
        "password") = false := by decide
    simp [hfull, hne]

/-- C7 witness: with the rest of the bundle valid, a confirmPassword change
that breaks the pair surfaces the mismatch message on confirmPassword. -/
theorem c7_partial_apply_pair_witness :
    (changeB validStateB (.confirmPassword "Xx1!aaaa")).errors "confirmPassword" =
      some "Passwords must match" :=
  (c7_partial_apply_pair_reporting validStateB "Xx1!aaaa" "").1
    (by decide) (by decide)

/-- C8: submitting a valid bundle stores exactly that bundle (the reducer
overwrites every key, so a subsequent read returns exactly the submitted
keys and values) and invokes the callback exactly once with it. -/
theorem c8_submit_roundtrip (store v : FormSchemaV)
    (h : (fullIssues v).isEmpty = true) :
    (handleSubmitB store v).store = v ∧
    (handleSubmitB store v).calls = [v] := by
  dsimp only [handleSubmitB]
  rw [if_pos h]
  exact ⟨rfl, rfl⟩

/-- C8 witness: the round-trip theorem at the valid scenario bundle over the
default store. -/
theorem c8_submit_roundtrip_witness :
    (handleSubmitB defaultFormValues validBundle).store = validBundle :=
  (c8_submit_roundtrip defaultFormValues validBundle (by decide)).1

/-- C9: image processing reports a field-level error exactly when the file is
larger than 5MB or its MIME type is not one of the four allowed image types;
on such a failure the stored value is the empty string with that error, and
when validation passes a successful conversion stores the data-URI with no
error (a failed read is also caught, so no exception escapes in any case). -/
theorem c9_image_validation (f : ImgFile)
    (convert : ImgFile → Except String String) :
    ((validateImage f).isSome = true ↔
      (5 * 1024 * 1024 < f.size ∨ ¬ f.type ∈ allowedImageTypes))
    ∧ (∀ e, validateImage f = some e →
        handleImageChange (some f) convert = ⟨"", e⟩)
    ∧ (validateImage f = none → ∀ b, convert f = .ok b →
        handleImageChange (some f) convert = ⟨b, ""⟩) := by
  refine ⟨?_, ?_, ?_⟩
  · unfold validateImage
    by_cases h1 : 5 * 1024 * 1024 < f.size
    · simp [h1]
    · by_cases h2 : allowedImageTypes.contains f.type
      · have h2m : f.type ∈ allowedImageTypes := by
          simpa [List.contains, List.elem_iff] using h2
        simp [h1, h2, h2m]
      · have h2m : ¬ f.type ∈ allowedImageTypes := by
          simpa [List.contains, List.elem_iff] using h2
        simp [h1, h2, h2m]
  · intro e he
    dsimp only [handleImageChange]
    rw [he]
  · intro he b hb
    dsimp only [handleImageChange]
    rw [he, hb]

/-- C9 witness: a 5MB-plus-one-byte PNG is rejected with the size message and
the empty string is stored. -/
theorem c9_image_validation_witness :
    handleImageChange (some ⟨5242881, "image/png"⟩)
        (fun _ => .ok "data:image/png;base64,AAA") =
      ⟨"", "Image size must be less than 5MB"⟩ :=
  (c9_image_validation ⟨5242881, "image/png"⟩
      (fun _ => .ok "data:image/png;base64,AAA")).2.1
    "Image size must be less than 5MB" (by decide)

/-- C10: in `validateField`, an error entry disappears from the map only when
the whole current value set parses successfully (and then only the changed
field's entry); when the parse fails and no issue targets the changed field,
the map — including any stale entry for the changed field — is unchanged. -/
theorem c10_stale_error_retention (s : StateB) (u : FieldUpd) :
    ((fullIssues (applyUpd s.values u)).isEmpty = false →
      (∀ i ∈ fullIssues (applyUpd s.values u), i.path ≠ updFieldName u) →
      (changeB s u).errors = s.errors)
    ∧ (∀ k, (s.errors k).isSome = true → (changeB s u).errors k = none →
        (fullIssues (applyUpd s.values u)).isEmpty = true ∧
        k = updFieldName u) := by
  constructor
  · intro hne hno
    dsimp only [changeB, validateFieldErrors]
    rw [if_neg (by simp [hne])]
    rcases hfind : List.find? (fun i => i.path == updFieldName u)
        (fullIssues (applyUpd s.values u)) with _ | i
    · simp only [hfind]
    · exfalso
      have hm := List.mem_of_find?_eq_some hfind
      have hp := List.find?_some hfind
      exact hno i hm (by simpa using hp)
  · intro k hk h0
    by_cases hempty : (fullIssues (applyUpd s.values u)).isEmpty = true
    · refine ⟨hempty, ?_⟩
      by_cases hkf : k = updFieldName u
      · exact hkf
      · exfalso
        dsimp only [changeB, validateFieldErrors] at h0
        rw [if_pos hempty] at h0
        simp only [if_neg hkf] at h0
        rw [h0] at hk
        simp at hk
    · exfalso
      dsimp only [changeB, validateFieldErrors] at h0
      rw [if_neg hempty] at h0
      rcases hfind : List.find? (fun i => i.path == updFieldName u)
          (fullIssues (applyUpd s.values u)) with _ | i
      · simp only [hfind] at h0
        exact absurd hk (by simp [h0])
      · simp only [hfind] at h0
        by_cases hkf : k = updFieldName u
        · rw [if_pos hkf] at h0
          exact absurd h0 (by simp)
        · rw [if_neg hkf] at h0
          exact absurd hk (by simp [h0])

/-- C10 witness: after the password becomes valid while the name is still
invalid, the stale password error entry is retained unchanged. -/
theorem c10_stale_error_retention_witness :
    (changeB staleStateB (.password "StrongPass123!")).errors =
      staleStateB.errors :=
  (c10_stale_error_retention staleStateB (.password "StrongPass123!")).1
    (by decide) (by decide)
